import Mathlib

/-!
# Verification of `set_refresh_rate.py` (refresh-rate-setter)

A shallow embedding of the refresh-rate manager: the Win32 display/power
boundary is modelled by explicit environment records, and the pure logic of
`list_modes`, `get_available_refresh_rates`, `set_refresh_rate`,
`is_plugged_in`, the automatic target selection inlined at the two call
sites, the `poll_loop` body and `on_apply_clicked` is translated into
executable Lean functions. Theorems about the spec's claims follow the
definitions.
-/

namespace RefreshRate

/-- One display mode tuple as built by `list_modes`:
`(dmPelsWidth, dmPelsHeight, dmBitsPerPel, dmDisplayFrequency)`. -/
structure Mode where
  width : Nat
  height : Nat
  bpp : Nat
  freq : Nat
deriving DecidableEq, Repr

/-- The fields of the Win32 `DEVMODEW` structure that the program reads or
writes (`dmPelsWidth`, `dmPelsHeight`, `dmBitsPerPel`, `dmDisplayFrequency`,
`dmFields`). -/
structure DEVMODEW where
  dmPelsWidth : Nat
  dmPelsHeight : Nat
  dmBitsPerPel : Nat
  dmDisplayFrequency : Nat
  dmFields : Nat
deriving DecidableEq, Repr

/-- `DM_DISPLAYFREQUENCY` bit, 0x00400000. -/
def DM_DISPLAYFREQUENCY : Nat := 0x00400000

/-- `DISP_CHANGE_SUCCESSFUL` status code. -/
def DISP_CHANGE_SUCCESSFUL : Int := 0

/-- The OS display boundary: the mode list that `EnumDisplaySettingsW`
enumerates index by index, the current mode it reports for
`ENUM_CURRENT_SETTINGS` (none when the call fails), and the status codes
`ChangeDisplaySettingsExW` returns for a test (`CDS_TEST`) call and for a
commit call on a given `DEVMODEW`. -/
structure DisplayEnv where
  modes : List Mode
  currentMode : Option DEVMODEW
  testStatus : DEVMODEW → Int
  commitStatus : DEVMODEW → Int

/-- Insert `x` into `l` in front of the first element `y` with `le x y`
(insertion step of a sort). -/
def insertBy (le : α → α → Bool) (x : α) : List α → List α
  | [] => [x]
  | y :: ys => if le x y then x :: y :: ys else y :: insertBy le x ys

/-- Insertion sort by the boolean comparison `le`; models Python's
`sorted(...)` on lists whose sort keys are pairwise distinct. -/
def sortBy (le : α → α → Bool) (l : List α) : List α :=
  l.foldr (insertBy le) []

/-- Python's tuple comparison on the sort key
`(width, height, freq, bpp)` used by `list_modes`. -/
def modeLe (a b : Mode) : Bool :=
  if a.width ≠ b.width then decide (a.width < b.width)
  else if a.height ≠ b.height then decide (a.height < b.height)
  else if a.freq ≠ b.freq then decide (a.freq < b.freq)
  else decide (a.bpp ≤ b.bpp)

/-- Ascending comparison on refresh rates, for `sorted(set(...))` on
integer lists. -/
def natLe (a b : Nat) : Bool := decide (a ≤ b)

/-- `sorted(set(l))` on a list of integers. -/
def natSort (l : List Nat) : List Nat := sortBy natLe l.dedup

/-- `list_modes`: enumerates every mode the driver reports, then
`sorted(set(modes), key=lambda x: (x[0], x[1], x[3], x[2]))`. -/
def list_modes (env : DisplayEnv) : List Mode :=
  sortBy modeLe env.modes.dedup

/-- `get_current_mode`: `EnumDisplaySettingsW(device, ENUM_CURRENT_SETTINGS)`;
`none` when the call fails. -/
def get_current_mode (env : DisplayEnv) : Option DEVMODEW :=
  env.currentMode

/-- The list `[r for (w,h,bpp,r) in modes if (w,h)==cur_res]` computed by
`set_refresh_rate` (and, with the same filter, by
`get_available_refresh_rates`) for the resolution of `dm`. -/
def validRates (env : DisplayEnv) (dm : DEVMODEW) : List Nat :=
  ((list_modes env).filter
    (fun m => decide ((m.width, m.height) = (dm.dmPelsWidth, dm.dmPelsHeight)))).map
    (fun m => m.freq)

/-- The hardcoded fallback rate list `(60, 120, 144, 165, 240)`. -/
def fallback_rates : List Nat := [60, 120, 144, 165, 240]

/-- `get_available_refresh_rates`: all refresh rates available at the
current resolution, deduplicated and sorted; the fallback list when the
current mode cannot be read or no rate matches the current resolution. -/
def get_available_refresh_rates (env : DisplayEnv) : List Nat :=
  match get_current_mode env with
  | none => fallback_rates
  | some dm =>
    let available_rates := natSort (validRates env dm)
    if available_rates.isEmpty then fallback_rates else available_rates

/-- The distinct failures `set_refresh_rate` raises as `RuntimeError`s. -/
inductive ApplyError where
  /-- "Unable to get current display settings" -/
  | modeQueryError
  /-- "Unable to read current settings into new DEVMODE" -/
  | readBackError
  /-- "Requested {hz} Hz not supported at current resolution {res}.
  Available: {rates}" -/
  | unsupportedRate (target_hz : Nat) (res : Nat × Nat) (available : List Nat)
  /-- "Test-change failed (code {res})." -/
  | driverRejected (code : Int)
  /-- "Change failed (code {res})." -/
  | applyFailed (code : Int)
deriving DecidableEq, Repr

/-- One `ChangeDisplaySettingsExW` invocation: a `CDS_TEST` call or a
commit (flags = 0) call, with the `DEVMODEW` passed to it. -/
inductive OSCall where
  | test (dm : DEVMODEW)
  | commit (dm : DEVMODEW)
deriving DecidableEq, Repr

/-- `set_refresh_rate(target_hz, device_name, test_first)`: result paired
with the trace of `ChangeDisplaySettingsExW` calls issued. -/
def set_refresh_rate (env : DisplayEnv) (target_hz : Nat) (test_first : Bool) :
    Except ApplyError Bool × List OSCall :=
  match get_current_mode env with
  | none => (.error .modeQueryError, [])
  | some dm =>
    let cur_res := (dm.dmPelsWidth, dm.dmPelsHeight)
    let valid_rates := validRates env dm
    if target_hz ∈ valid_rates then
      match get_current_mode env with
      | none => (.error .readBackError, [])
      | some dm2 =>
        let new_dm : DEVMODEW :=
          { dm2 with dmDisplayFrequency := target_hz,
                     dmFields := dm2.dmFields ||| DM_DISPLAYFREQUENCY }
        if test_first then
          let res := env.testStatus new_dm
          if res ≠ DISP_CHANGE_SUCCESSFUL then
            (.error (.driverRejected res), [.test new_dm])
          else
            let res2 := env.commitStatus new_dm
            if res2 ≠ DISP_CHANGE_SUCCESSFUL then
              (.error (.applyFailed res2), [.test new_dm, .commit new_dm])
            else
              (.ok true, [.test new_dm, .commit new_dm])
        else
          let res2 := env.commitStatus new_dm
          if res2 ≠ DISP_CHANGE_SUCCESSFUL then
            (.error (.applyFailed res2), [.commit new_dm])
          else
            (.ok true, [.commit new_dm])
    else
      (.error (.unsupportedRate target_hz cur_res (natSort valid_rates)), [])

/-- `is_plugged_in` fails with `RuntimeError("GetSystemPowerStatus failed")`
when the boundary call returns false. -/
inductive PowerError where
  | powerQueryError
deriving DecidableEq, Repr

/-- The OS power boundary: whether `GetSystemPowerStatus` succeeds, and the
`ACLineStatus` byte it fills in (0 = offline, 1 = online, 255 = unknown). -/
structure PowerEnv where
  querySuccess : Bool
  aclineStatus : Nat
deriving DecidableEq, Repr

/-- `is_plugged_in`: raises when `GetSystemPowerStatus` fails, otherwise
returns `status.ACLineStatus == 1`. -/
def is_plugged_in (env : PowerEnv) : Except PowerError Bool :=
  if env.querySuccess then .ok (decide (env.aclineStatus = 1))
  else .error .powerQueryError

/-- Python `max(l)` on a non-empty integer list (junk value 0 on `[]`,
where Python would raise). -/
def listMax : List Nat → Nat
  | [] => 0
  | x :: xs => xs.foldl Nat.max x

/-- Python `min(l)` on a non-empty integer list (junk value 0 on `[]`,
where Python would raise). -/
def listMin : List Nat → Nat
  | [] => 0
  | x :: xs => xs.foldl Nat.min x

/-- The automatic target selection inlined identically in `poll_loop` and
`on_apply_clicked`: `240 if 240 in available_rates else max(available_rates)`
when plugged in, `60 if 60 in available_rates else min(available_rates)`
when on battery. -/
def selectTarget (pluggedIn : Bool) (available_rates : List Nat) : Nat :=
  if pluggedIn then
    if 240 ∈ available_rates then 240 else listMax available_rates
  else
    if 60 ∈ available_rates then 60 else listMin available_rates

/-- The sample `poll_loop` computes each iteration:
`try: plugged = is_plugged_in() except: plugged = None`. -/
def sampleOf (penv : PowerEnv) : Option Bool :=
  match is_plugged_in penv with
  | .ok b => some b
  | .error _ => none

/-- The inputs of one `poll_loop` iteration: the power boundary sampled by
`is_plugged_in`, the display boundary `set_refresh_rate` would run
against, and the value of `override_var` read through `self.override_var.get()`. -/
structure PollInput where
  penv : PowerEnv
  denv : DisplayEnv
  override_var : Bool

/-- One iteration of the `poll_loop` body over the state `last_plugged`.
Returns the new `last_plugged` and, when the loop invoked
`set_refresh_rate`, the target it passed together with the call's result
(an `.error` is caught by the `except` branch and only warned about). -/
def pollStep (available_rates : List Nat) (last_plugged : Option Bool)
    (inp : PollInput) : Option Bool × Option (Nat × Except ApplyError Bool) :=
  let plugged := sampleOf inp.penv
  let event : Option (Nat × Except ApplyError Bool) :=
    match plugged with
    | none => none
    | some p =>
      if last_plugged = none ∨ some p ≠ last_plugged then
        if inp.override_var then none
        else
          let target := selectTarget p available_rates
          some (target, (set_refresh_rate inp.denv target true).1)
      else none
  (plugged, event)

/-- Iterated `poll_loop` body: the list of per-iteration apply events
(`none` when the iteration invoked no `set_refresh_rate`). -/
def pollRun (available_rates : List Nat) :
    Option Bool → List PollInput → List (Option (Nat × Except ApplyError Bool))
  | _, [] => []
  | last_plugged, inp :: rest =>
    let (s, e) := pollStep available_rates last_plugged inp
    e :: pollRun available_rates s rest

/-- `self.available_rates = get_available_refresh_rates()` evaluated once
in `RefreshGUI.__init__` and never reassigned. -/
def init_available_rates (env : DisplayEnv) : List Nat :=
  get_available_refresh_rates env

/-- Outcome of `RefreshGUI.on_apply_clicked`: the target it handed to
`set_refresh_rate` (none when `is_plugged_in` raised, caught by the
handler) and that call's result and OS-call trace. -/
structure ApplyNowResult where
  target : Option Nat
  applied : Option (Except ApplyError Bool × List OSCall)
deriving Repr

/-- `RefreshGUI.on_apply_clicked`: with override, the target is the
manually selected rate; otherwise it is selected automatically from
`self.available_rates` using the live power state; then
`set_refresh_rate(target)` runs (every exception is caught and shown). -/
def on_apply_clicked (env : DisplayEnv) (penv : PowerEnv)
    (override_var : Bool) (selected_rate : Nat) (available_rates : List Nat) :
    ApplyNowResult :=
  let target? : Option Nat :=
    if override_var then some selected_rate
    else
      match is_plugged_in penv with
      | .error _ => none
      | .ok p => some (selectTarget p available_rates)
  match target? with
  | none => ⟨none, none⟩
  | some t => ⟨some t, some (set_refresh_rate env t true)⟩

/-! ## Helper lemmas about the list utilities -/

theorem mem_insertBy (le : α → α → Bool) (x a : α) (l : List α) :
    a ∈ insertBy le x l ↔ a = x ∨ a ∈ l := by
  induction l with
  | nil => simp [insertBy]
  | cons y ys ih =>
    simp only [insertBy]
    split
    · simp [List.mem_cons]
    · simp only [List.mem_cons, ih]
      tauto

theorem mem_sortBy (le : α → α → Bool) (a : α) (l : List α) :
    a ∈ sortBy le l ↔ a ∈ l := by
  induction l with
  | nil => simp [sortBy]
  | cons x xs ih =>
    show a ∈ insertBy le x (sortBy le xs) ↔ _
    rw [mem_insertBy]
    simp [ih]

theorem mem_natSort (a : Nat) (l : List Nat) : a ∈ natSort l ↔ a ∈ l := by
  rw [natSort, mem_sortBy, List.mem_dedup]

theorem insertBy_ne_nil (le : α → α → Bool) (x : α) (l : List α) :
    insertBy le x l ≠ [] := by
  cases l with
  | nil => simp [insertBy]
  | cons y ys =>
    simp only [insertBy]
    split <;> simp

theorem sortBy_eq_nil (le : α → α → Bool) (l : List α) :
    sortBy le l = [] ↔ l = [] := by
  cases l with
  | nil => simp [sortBy]
  | cons x xs =>
    constructor
    · intro h
      exact absurd h (insertBy_ne_nil le x (sortBy le xs))
    · intro h
      cases h

theorem natSort_eq_nil (l : List Nat) : natSort l = [] ↔ l = [] := by
  rw [natSort, sortBy_eq_nil, List.dedup_eq_nil]

theorem foldl_max_shape (xs : List Nat) :
    ∀ a, xs.foldl Nat.max a = a ∨ xs.foldl Nat.max a ∈ xs := by
  induction xs with
  | nil => intro a; left; rfl
  | cons x xs ih =>
    intro a
    rw [List.foldl_cons]
    rcases ih (Nat.max a x) with h | h
    · rw [h]
      rcases Nat.le_total a x with h2 | h2
      · right
        have h3 : Nat.max a x = x := Nat.max_eq_right h2
        rw [h3]; exact List.mem_cons_self x xs
      · left; exact Nat.max_eq_left h2
    · right; exact List.mem_cons_of_mem x h

theorem le_foldl_max_init (xs : List Nat) : ∀ a, a ≤ xs.foldl Nat.max a := by
  induction xs with
  | nil => intro a; exact Nat.le_refl a
  | cons x xs ih =>
    intro a
    rw [List.foldl_cons]
    exact Nat.le_trans (Nat.le_max_left a x) (ih (Nat.max a x))

theorem le_foldl_max_mem (xs : List Nat) :
    ∀ a b, b ∈ xs → b ≤ xs.foldl Nat.max a := by
  induction xs with
  | nil => intro a b h; cases h
  | cons x xs ih =>
    intro a b h
    rw [List.foldl_cons]
    rcases List.mem_cons.mp h with rfl | h
    · exact Nat.le_trans (Nat.le_max_right a b) (le_foldl_max_init xs (Nat.max a b))
    · exact ih (Nat.max a x) b h

theorem listMax_mem (l : List Nat) (h : l ≠ []) : listMax l ∈ l := by
  cases l with
  | nil => exact absurd rfl h
  | cons x xs =>
    show xs.foldl Nat.max x ∈ x :: xs
    rcases foldl_max_shape xs x with h1 | h1
    · rw [h1]; exact List.mem_cons_self x xs
    · exact List.mem_cons_of_mem x h1

theorem listMax_ub (l : List Nat) (b : Nat) (h : b ∈ l) : b ≤ listMax l := by
  cases l with
  | nil => cases h
  | cons x xs =>
    show b ≤ xs.foldl Nat.max x
    rcases List.mem_cons.mp h with rfl | h1
    · exact le_foldl_max_init xs b
    · exact le_foldl_max_mem xs x b h1

theorem foldl_min_shape (xs : List Nat) :
    ∀ a, xs.foldl Nat.min a = a ∨ xs.foldl Nat.min a ∈ xs := by
  induction xs with
  | nil => intro a; left; rfl
  | cons x xs ih =>
    intro a
    rw [List.foldl_cons]
    rcases ih (Nat.min a x) with h | h
    · rw [h]
      rcases Nat.le_total a x with h2 | h2
      · left; exact Nat.min_eq_left h2
      · right
        have h3 : Nat.min a x = x := Nat.min_eq_right h2
        rw [h3]; exact List.mem_cons_self x xs
    · right; exact List.mem_cons_of_mem x h

theorem foldl_min_le_init (xs : List Nat) : ∀ a, xs.foldl Nat.min a ≤ a := by
  induction xs with
  | nil => intro a; exact Nat.le_refl a
  | cons x xs ih =>
    intro a
    rw [List.foldl_cons]
    exact Nat.le_trans (ih (Nat.min a x)) (Nat.min_le_left a x)

theorem foldl_min_le_mem (xs : List Nat) :
    ∀ a b, b ∈ xs → xs.foldl Nat.min a ≤ b := by
  induction xs with
  | nil => intro a b h; cases h
  | cons x xs ih =>
    intro a b h
    rw [List.foldl_cons]
    rcases List.mem_cons.mp h with rfl | h
    · exact Nat.le_trans (foldl_min_le_init xs (Nat.min a b)) (Nat.min_le_right a b)
    · exact ih (Nat.min a x) b h

theorem listMin_mem (l : List Nat) (h : l ≠ []) : listMin l ∈ l := by
  cases l with
  | nil => exact absurd rfl h
  | cons x xs =>
    show xs.foldl Nat.min x ∈ x :: xs
    rcases foldl_min_shape xs x with h1 | h1
    · rw [h1]; exact List.mem_cons_self x xs
    · exact List.mem_cons_of_mem x h1

theorem listMin_lb (l : List Nat) (b : Nat) (h : b ∈ l) : listMin l ≤ b := by
  cases l with
  | nil => cases h
  | cons x xs =>
    show xs.foldl Nat.min x ≤ b
    rcases List.mem_cons.mp h with rfl | h1
    · exact foldl_min_le_init xs b
    · exact foldl_min_le_mem xs x b h1

/-- Membership in `validRates` is membership of a matching mode in the raw
enumeration: the sort and deduplication of `list_modes` change nothing. -/
theorem mem_validRates (env : DisplayEnv) (dm : DEVMODEW) (x : Nat) :
    x ∈ validRates env dm ↔
      ∃ m ∈ env.modes, m.width = dm.dmPelsWidth ∧ m.height = dm.dmPelsHeight ∧
        m.freq = x := by
  simp only [validRates, List.mem_map, List.mem_filter, list_modes, mem_sortBy,
    List.mem_dedup, decide_eq_true_eq, Prod.mk.injEq]
  constructor
  · rintro ⟨m, ⟨hm, hw, hh⟩, hf⟩
    exact ⟨m, hm, hw, hh, hf⟩
  · rintro ⟨m, hm, hw, hh, hf⟩
    exact ⟨m, ⟨hm, hw, hh⟩, hf⟩

/-! ## Claim theorems -/

/-- C5: the automatic target selection returns 240 if present and
otherwise the maximum of the set when plugged in, and 60 if present and
otherwise the minimum of the set when on battery, for every non-empty
rate set; including the four concrete examples of the spec. -/
theorem selectTarget_auto_policy (rates : List Nat) (h : rates ≠ []) :
    (240 ∈ rates → selectTarget true rates = 240) ∧
    (240 ∉ rates →
      selectTarget true rates ∈ rates ∧ ∀ x ∈ rates, x ≤ selectTarget true rates) ∧
    (60 ∈ rates → selectTarget false rates = 60) ∧
    (60 ∉ rates →
      selectTarget false rates ∈ rates ∧ ∀ x ∈ rates, selectTarget false rates ≤ x) ∧
    selectTarget true [60, 144, 240] = 240 ∧
    selectTarget true [60, 120] = 120 ∧
    selectTarget false [60, 144, 240] = 60 ∧
    selectTarget false [120, 144] = 120 := by
  refine ⟨?_, ?_, ?_, ?_, by decide, by decide, by decide, by decide⟩
  · intro hm; simp [selectTarget, hm]
  · intro hm
    have he : selectTarget true rates = listMax rates := by simp [selectTarget, hm]
    rw [he]
    exact ⟨listMax_mem rates h, fun x hx => listMax_ub rates x hx⟩
  · intro hm; simp [selectTarget, hm]
  · intro hm
    have he : selectTarget false rates = listMin rates := by simp [selectTarget, hm]
    rw [he]
    exact ⟨listMin_mem rates h, fun x hx => listMin_lb rates x hx⟩

theorem selectTarget_auto_policy_witness :
    ([60, 144, 240] : List Nat) ≠ [] ∧ selectTarget true [60, 144, 240] = 240 :=
  ⟨by decide, (selectTarget_auto_policy [60, 144, 240] (by decide)).1 (by decide)⟩

/-- C7 counterexample: `is_plugged_in` maps the OS-reported unknown state
(`ACLineStatus = 255`) to `.ok false`, the very same value it returns for
the offline state — the unknown status is silently coerced into the
on-battery boolean, contradicting the claim that it never is. -/
theorem is_plugged_in_coerces_unknown :
    is_plugged_in ⟨true, 255⟩ = .ok false ∧ is_plugged_in ⟨true, 0⟩ = .ok false :=
  ⟨rfl, rfl⟩

/-- C7 amended: `is_plugged_in` reports a distinct error only when the OS
power query itself fails; a successful reading with `ACLineStatus = 255`
(unknown) is coerced into `false`, indistinguishable from on-battery,
because the function returns `ACLineStatus == 1`. -/
theorem is_plugged_in_unknown_as_false (env env2 : PowerEnv)
    (h : env.querySuccess = true) (h255 : env.aclineStatus = 255)
    (h2 : env2.querySuccess = false) :
    is_plugged_in env = .ok false ∧
    is_plugged_in env2 = .error .powerQueryError := by
  constructor
  · simp [is_plugged_in, h, h255]
  · simp [is_plugged_in, h2]

theorem is_plugged_in_unknown_as_false_witness :
    (⟨true, 255⟩ : PowerEnv).querySuccess = true ∧
    (⟨false, 1⟩ : PowerEnv).querySuccess = false ∧
    (is_plugged_in ⟨true, 255⟩ = .ok false ∧
      is_plugged_in ⟨false, 1⟩ = .error .powerQueryError) :=
  ⟨rfl, rfl, is_plugged_in_unknown_as_false ⟨true, 255⟩ ⟨false, 1⟩ rfl rfl rfl⟩

/-- C1: for any target not in `ratesForCurrentResolution`
(`get_available_refresh_rates`), `set_refresh_rate` fails with the
unsupported-rate error carrying the requested rate, the current
resolution and the valid (deduplicated, sorted) rate set, and issues no
`ChangeDisplaySettingsExW` call at all — neither a test nor a commit. -/
theorem unsupported_rate_fails_without_os_calls (env : DisplayEnv)
    (dm : DEVMODEW) (target : Nat) (tf : Bool)
    (hcm : env.currentMode = some dm)
    (hns : target ∉ get_available_refresh_rates env) :
    set_refresh_rate env target tf =
      (.error (.unsupportedRate target (dm.dmPelsWidth, dm.dmPelsHeight)
        (natSort (validRates env dm))), []) := by
  have hval : target ∉ validRates env dm := by
    intro hmem
    apply hns
    have hmem2 : target ∈ natSort (validRates env dm) := (mem_natSort _ _).mpr hmem
    simp only [get_available_refresh_rates, get_current_mode, hcm]
    split
    · rename_i hemp
      rw [List.isEmpty_iff] at hemp
      rw [hemp] at hmem2
      cases hmem2
    · exact hmem2
  simp [set_refresh_rate, get_current_mode, hcm, hval]

theorem unsupported_rate_fails_without_os_calls_witness :
    (75 ∉ get_available_refresh_rates
      ⟨[⟨1920, 1080, 32, 60⟩], some ⟨1920, 1080, 32, 60, 0⟩,
        fun _ => 0, fun _ => 0⟩) ∧
    set_refresh_rate
      ⟨[⟨1920, 1080, 32, 60⟩], some ⟨1920, 1080, 32, 60, 0⟩,
        fun _ => 0, fun _ => 0⟩ 75 true =
      (.error (.unsupportedRate 75 (1920, 1080) [60]), []) :=
  ⟨by decide, by
    have h := unsupported_rate_fails_without_os_calls
      ⟨[⟨1920, 1080, 32, 60⟩], some ⟨1920, 1080, 32, 60, 0⟩,
        fun _ => 0, fun _ => 0⟩
      ⟨1920, 1080, 32, 60, 0⟩ 75 true rfl (by decide)
    rw [h]
    rfl⟩

/-- C6: `get_available_refresh_rates` never returns an empty list; it
returns exactly the fixed fallback list when the current mode cannot be
queried or no enumerated mode matches the current resolution, and
otherwise the (sorted, deduplicated) refresh-rate projection of the
enumerated modes at the current resolution. -/
theorem rates_for_current_resolution_total (env : DisplayEnv) :
    get_available_refresh_rates env ≠ [] ∧
    (env.currentMode = none → get_available_refresh_rates env = fallback_rates) ∧
    (∀ dm, env.currentMode = some dm →
      (validRates env dm = [] →
        get_available_refresh_rates env = fallback_rates) ∧
      (validRates env dm ≠ [] →
        get_available_refresh_rates env = natSort (validRates env dm) ∧
        ∀ x, x ∈ get_available_refresh_rates env ↔
          ∃ m ∈ env.modes, m.width = dm.dmPelsWidth ∧
            m.height = dm.dmPelsHeight ∧ m.freq = x)) := by
  refine ⟨?_, ?_, ?_⟩
  · rcases h : env.currentMode with _ | dm
    · simp [get_available_refresh_rates, get_current_mode, h, fallback_rates]
    · simp only [get_available_refresh_rates, get_current_mode, h]
      split
      · simp [fallback_rates]
      · rename_i hemp
        intro hnil
        rw [hnil] at hemp
        exact hemp rfl
  · intro h
    simp [get_available_refresh_rates, get_current_mode, h]
  · intro dm hcm
    constructor
    · intro hv
      have h1 : natSort (validRates env dm) = [] := (natSort_eq_nil _).mpr hv
      simp [get_available_refresh_rates, get_current_mode, hcm, h1]
    · intro hv
      have h1 : natSort (validRates env dm) ≠ [] :=
        fun hn => hv ((natSort_eq_nil _).mp hn)
      have heq : get_available_refresh_rates env = natSort (validRates env dm) := by
        simp only [get_available_refresh_rates, get_current_mode, hcm]
        split
        · rename_i hemp
          rw [List.isEmpty_iff] at hemp
          exact absurd hemp h1
        · rfl
      refine ⟨heq, ?_⟩
      intro x
      rw [heq, mem_natSort, mem_validRates]

theorem rates_for_current_resolution_total_witness :
    get_available_refresh_rates ⟨[], none, fun _ => 0, fun _ => 0⟩ =
      fallback_rates :=
  (rates_for_current_resolution_total ⟨[], none, fun _ => 0, fun _ => 0⟩).2.1 rfl

/-- C2: with the test phase enabled, `set_refresh_rate` first issues a
`CDS_TEST` call on the candidate mode — the current mode with only the
refresh rate replaced by the target (plus the `DM_DISPLAYFREQUENCY` flag
in `dmFields`); a non-success test status fails with the driver-rejected
error carrying that status and never issues the commit; after a
successful test it commits the same candidate, and a non-success commit
fails with the apply-failed error carrying that status. -/
theorem test_then_commit_protocol (env : DisplayEnv) (dm : DEVMODEW)
    (target : Nat)
    (hcm : env.currentMode = some dm)
    (hmem : target ∈ validRates env dm) :
    let cand : DEVMODEW :=
      { dm with dmDisplayFrequency := target,
                dmFields := dm.dmFields ||| DM_DISPLAYFREQUENCY }
    (cand.dmPelsWidth = dm.dmPelsWidth ∧ cand.dmPelsHeight = dm.dmPelsHeight ∧
      cand.dmBitsPerPel = dm.dmBitsPerPel ∧ cand.dmDisplayFrequency = target) ∧
    (env.testStatus cand ≠ DISP_CHANGE_SUCCESSFUL →
      set_refresh_rate env target true =
        (.error (.driverRejected (env.testStatus cand)), [.test cand])) ∧
    (env.testStatus cand = DISP_CHANGE_SUCCESSFUL →
      (env.commitStatus cand ≠ DISP_CHANGE_SUCCESSFUL →
        set_refresh_rate env target true =
          (.error (.applyFailed (env.commitStatus cand)),
            [.test cand, .commit cand])) ∧
      (env.commitStatus cand = DISP_CHANGE_SUCCESSFUL →
        set_refresh_rate env target true =
          (.ok true, [.test cand, .commit cand]))) := by
  refine ⟨⟨rfl, rfl, rfl, rfl⟩, ?_, ?_⟩
  · intro ht
    simp [set_refresh_rate, get_current_mode, hcm, hmem, ht]
  · intro ht
    constructor
    · intro hc
      simp [set_refresh_rate, get_current_mode, hcm, hmem, ht, hc]
    · intro hc
      simp [set_refresh_rate, get_current_mode, hcm, hmem, ht, hc]

theorem test_then_commit_protocol_witness :
    (240 ∈ validRates
      ⟨[⟨1920, 1080, 32, 60⟩, ⟨1920, 1080, 32, 240⟩],
        some ⟨1920, 1080, 32, 60, 0⟩, fun _ => 1, fun _ => 0⟩
      ⟨1920, 1080, 32, 60, 0⟩) ∧
    set_refresh_rate
      ⟨[⟨1920, 1080, 32, 60⟩, ⟨1920, 1080, 32, 240⟩],
        some ⟨1920, 1080, 32, 60, 0⟩, fun _ => 1, fun _ => 0⟩ 240 true =
      (.error (.driverRejected 1), [.test ⟨1920, 1080, 32, 240, 0x00400000⟩]) :=
  ⟨by decide, by
    have h := (test_then_commit_protocol
      ⟨[⟨1920, 1080, 32, 60⟩, ⟨1920, 1080, 32, 240⟩],
        some ⟨1920, 1080, 32, 60, 0⟩, fun _ => 1, fun _ => 0⟩
      ⟨1920, 1080, 32, 60, 0⟩ 240 rfl (by decide)).2.1 (by decide)
    rw [h]
    rfl⟩

/-- C3: with override disabled, the sample sequence
PluggedIn, PluggedIn, OnBattery, OnBattery, PluggedIn starting from an
unsampled state produces exactly 3 `set_refresh_rate` invocations — at
the first concrete sample and at the two genuine transitions — not one
per poll. -/
theorem poll_loop_three_applies (rates : List Nat) (denv : DisplayEnv) :
    (pollRun rates none
        [⟨⟨true, 1⟩, denv, false⟩, ⟨⟨true, 1⟩, denv, false⟩,
         ⟨⟨true, 0⟩, denv, false⟩, ⟨⟨true, 0⟩, denv, false⟩,
         ⟨⟨true, 1⟩, denv, false⟩]).map Option.isSome =
      [true, false, true, false, true] ∧
    ((pollRun rates none
        [⟨⟨true, 1⟩, denv, false⟩, ⟨⟨true, 1⟩, denv, false⟩,
         ⟨⟨true, 0⟩, denv, false⟩, ⟨⟨true, 0⟩, denv, false⟩,
         ⟨⟨true, 1⟩, denv, false⟩]).filter Option.isSome).length = 3 :=
  ⟨rfl, rfl⟩

/-- C4: in any loop iteration whose `override_var` reads true, the loop
invokes no `set_refresh_rate`, whatever the sample and previous state;
while a manual apply-now click with override enabled still calls
`set_refresh_rate` with the manually selected rate as the target. -/
theorem override_blocks_automatic_applies (rates : List Nat)
    (last_plugged : Option Bool) (inp : PollInput) (env : DisplayEnv)
    (penv : PowerEnv) (manual_rate : Nat) (rates2 : List Nat)
    (h : inp.override_var = true) :
    (pollStep rates last_plugged inp).2 = none ∧
    (on_apply_clicked env penv true manual_rate rates2).target =
      some manual_rate ∧
    (on_apply_clicked env penv true manual_rate rates2).applied =
      some (set_refresh_rate env manual_rate true) := by
  refine ⟨?_, rfl, rfl⟩
  cases hs : sampleOf inp.penv with
  | none => simp [pollStep, hs]
  | some p => simp [pollStep, hs, h]

theorem override_blocks_automatic_applies_witness :
    (⟨⟨true, 1⟩, ⟨[], none, fun _ => 0, fun _ => 0⟩, true⟩ :
      PollInput).override_var = true ∧
    ((pollStep [60, 240] (some false)
        ⟨⟨true, 1⟩, ⟨[], none, fun _ => 0, fun _ => 0⟩, true⟩).2 = none ∧
      (on_apply_clicked ⟨[], none, fun _ => 0, fun _ => 0⟩ ⟨true, 1⟩ true 144
        [60, 240]).target = some 144 ∧
      (on_apply_clicked ⟨[], none, fun _ => 0, fun _ => 0⟩ ⟨true, 1⟩ true 144
        [60, 240]).applied =
        some (set_refresh_rate ⟨[], none, fun _ => 0, fun _ => 0⟩ 144 true)) :=
  ⟨rfl, override_blocks_automatic_applies [60, 240] (some false)
    ⟨⟨true, 1⟩, ⟨[], none, fun _ => 0, fun _ => 0⟩, true⟩
    ⟨[], none, fun _ => 0, fun _ => 0⟩ ⟨true, 1⟩ 144 [60, 240] rfl⟩

/-- C8 counterexample: with a working display, the successful/failed/
successful sample run PluggedIn, query-failure, PluggedIn triggers an
apply at the third poll, even though the power state never changed. The
failed middle sample resets `last_plugged` to `None`, so the next
concrete sample matches the first-concrete-sample branch — it is counted
as a transition source, contradicting the claim. -/
theorem failed_sample_triggers_reapply :
    pollRun [60, 240] none
        [⟨⟨true, 1⟩,
          ⟨[⟨1920, 1080, 32, 60⟩, ⟨1920, 1080, 32, 240⟩],
            some ⟨1920, 1080, 32, 60, 0⟩, fun _ => 0, fun _ => 0⟩, false⟩,
         ⟨⟨false, 0⟩,
          ⟨[⟨1920, 1080, 32, 60⟩, ⟨1920, 1080, 32, 240⟩],
            some ⟨1920, 1080, 32, 60, 0⟩, fun _ => 0, fun _ => 0⟩, false⟩,
         ⟨⟨true, 1⟩,
          ⟨[⟨1920, 1080, 32, 60⟩, ⟨1920, 1080, 32, 240⟩],
            some ⟨1920, 1080, 32, 60, 0⟩, fun _ => 0, fun _ => 0⟩, false⟩] =
      [some (240, .ok true), none, some (240, .ok true)] :=
  rfl

/-- C8 amended: a failed power query produces no apply at that iteration
and is surfaced as the `Unknown` sample, but it also resets
`last_plugged` to `None`; consequently the next successful concrete
sample is treated as a first concrete sample and triggers an apply even
when the power state is unchanged. -/
theorem failed_sample_resets_state (rates : List Nat)
    (last_plugged : Option Bool) (inp : PollInput)
    (hq : inp.penv.querySuccess = false) :
    pollStep rates last_plugged inp = (none, none) ∧
    ∀ (inp2 : PollInput) (p : Bool), sampleOf inp2.penv = some p →
      inp2.override_var = false →
      (pollStep rates none inp2).2 =
        some (selectTarget p rates,
          (set_refresh_rate inp2.denv (selectTarget p rates) true).1) := by
  constructor
  · have hs : sampleOf inp.penv = none := by simp [sampleOf, is_plugged_in, hq]
    simp [pollStep, hs]
  · intro inp2 p h2 h2o
    simp [pollStep, h2, h2o]

theorem failed_sample_resets_state_witness :
    (⟨false, 0⟩ : PowerEnv).querySuccess = false ∧
    pollStep [60, 240] (some true)
        ⟨⟨false, 0⟩, ⟨[], none, fun _ => 0, fun _ => 0⟩, false⟩ =
      (none, none) :=
  ⟨rfl, (failed_sample_resets_state [60, 240] (some true)
    ⟨⟨false, 0⟩, ⟨[], none, fun _ => 0, fun _ => 0⟩, false⟩ rfl).1⟩

/-- C9 counterexample: the loop's rate set is `self.available_rates`,
computed once at initialization. Initialized while 240 Hz was available,
the loop still targets 240 on a later transition even though the live
set at that moment is [60, 120] — the live selection would be 120 and
240 is not live-available, so the controller rejects the apply. The
target is therefore not computed from the live available-rate set. -/
theorem cached_rates_stale_target :
    init_available_rates
        ⟨[⟨1920, 1080, 32, 60⟩, ⟨1920, 1080, 32, 240⟩],
          some ⟨1920, 1080, 32, 60, 0⟩, fun _ => 0, fun _ => 0⟩ = [60, 240] ∧
    get_available_refresh_rates
        ⟨[⟨1920, 1080, 32, 60⟩, ⟨1920, 1080, 32, 120⟩],
          some ⟨1920, 1080, 32, 60, 0⟩, fun _ => 0, fun _ => 0⟩ = [60, 120] ∧
    (pollStep
        (init_available_rates
          ⟨[⟨1920, 1080, 32, 60⟩, ⟨1920, 1080, 32, 240⟩],
            some ⟨1920, 1080, 32, 60, 0⟩, fun _ => 0, fun _ => 0⟩)
        none
        ⟨⟨true, 1⟩,
          ⟨[⟨1920, 1080, 32, 60⟩, ⟨1920, 1080, 32, 120⟩],
            some ⟨1920, 1080, 32, 60, 0⟩, fun _ => 0, fun _ => 0⟩,
          false⟩).2 =
      some (240, .error (.unsupportedRate 240 (1920, 1080) [60, 120])) ∧
    selectTarget true
        (get_available_refresh_rates
          ⟨[⟨1920, 1080, 32, 60⟩, ⟨1920, 1080, 32, 120⟩],
            some ⟨1920, 1080, 32, 60, 0⟩, fun _ => 0, fun _ => 0⟩) = 120 ∧
    (240 ∉
      get_available_refresh_rates
        ⟨[⟨1920, 1080, 32, 60⟩, ⟨1920, 1080, 32, 120⟩],
          some ⟨1920, 1080, 32, 60, 0⟩, fun _ => 0, fun _ => 0⟩) :=
  ⟨rfl, rfl, rfl, rfl, by decide⟩

/-- C9 amended: on a transition with override disabled, the loop computes
the target by the automatic policy from `self.available_rates`, the rate
set computed once by `get_available_refresh_rates` at GUI
initialization; the display environment at transition time does not
enter the selection (only the subsequent apply runs against it). -/
theorem loop_target_from_init_rates (env0 : DisplayEnv) (inp : PollInput)
    (p : Bool) (last_plugged : Option Bool)
    (hs : sampleOf inp.penv = some p) (ho : inp.override_var = false)
    (htr : last_plugged = none ∨ some p ≠ last_plugged) :
    (pollStep (init_available_rates env0) last_plugged inp).2 =
      some (selectTarget p (get_available_refresh_rates env0),
        (set_refresh_rate inp.denv
          (selectTarget p (get_available_refresh_rates env0)) true).1) := by
  simp only [pollStep, hs]
  rw [if_pos htr]
  simp [ho, init_available_rates]

theorem loop_target_from_init_rates_witness :
    sampleOf ⟨true, 1⟩ = some true ∧
    (pollStep
        (init_available_rates
          ⟨[⟨1920, 1080, 32, 60⟩, ⟨1920, 1080, 32, 240⟩],
            some ⟨1920, 1080, 32, 60, 0⟩, fun _ => 0, fun _ => 0⟩)
        none
        ⟨⟨true, 1⟩,
          ⟨[⟨1920, 1080, 32, 60⟩, ⟨1920, 1080, 32, 120⟩],
            some ⟨1920, 1080, 32, 60, 0⟩, fun _ => 0, fun _ => 0⟩,
          false⟩).2 =
      some (240, .error (.unsupportedRate 240 (1920, 1080) [60, 120])) :=
  ⟨rfl, by
    have h := loop_target_from_init_rates
      ⟨[⟨1920, 1080, 32, 60⟩, ⟨1920, 1080, 32, 240⟩],
        some ⟨1920, 1080, 32, 60, 0⟩, fun _ => 0, fun _ => 0⟩
      ⟨⟨true, 1⟩,
        ⟨[⟨1920, 1080, 32, 60⟩, ⟨1920, 1080, 32, 120⟩],
          some ⟨1920, 1080, 32, 60, 0⟩, fun _ => 0, fun _ => 0⟩,
        false⟩
      true none rfl rfl (Or.inl rfl)
    rw [h]
    rfl⟩

/-- C10: a transition whose apply fails still records the attempt, still
updates `last_plugged` to the new sample, does not retry on a subsequent
identical concrete poll, and the next distinct transition attempts an
apply again. -/
theorem failed_apply_does_not_block (rates : List Nat) (p q : Bool)
    (inp1 inp2 inp3 : PollInput) (err : ApplyError)
    (h1 : sampleOf inp1.penv = some p) (h1o : inp1.override_var = false)
    (hfail : (set_refresh_rate inp1.denv (selectTarget p rates) true).1 =
      .error err)
    (h2 : sampleOf inp2.penv = some p)
    (h3 : sampleOf inp3.penv = some q) (h3o : inp3.override_var = false)
    (hpq : q ≠ p) :
    pollStep rates none inp1 =
      (some p, some (selectTarget p rates, .error err)) ∧
    (pollStep rates (some p) inp2).2 = none ∧
    (pollStep rates (some p) inp2).1 = some p ∧
    (pollStep rates (some p) inp3).2 =
      some (selectTarget q rates,
        (set_refresh_rate inp3.denv (selectTarget q rates) true).1) := by
  refine ⟨?_, ?_, ?_, ?_⟩
  · simp [pollStep, h1, h1o, hfail]
  · simp [pollStep, h2]
  · simp [pollStep, h2]
  · simp [pollStep, h3, h3o, hpq]

theorem failed_apply_does_not_block_witness :
    (set_refresh_rate ⟨[], none, fun _ => 0, fun _ => 0⟩
        (selectTarget true [60, 240]) true).1 = .error .modeQueryError ∧
    (false ≠ true) ∧
    (pollStep [60, 240] none
        ⟨⟨true, 1⟩, ⟨[], none, fun _ => 0, fun _ => 0⟩, false⟩ =
      (some true, some (selectTarget true [60, 240], .error .modeQueryError)) ∧
    (pollStep [60, 240] (some true)
        ⟨⟨true, 1⟩, ⟨[], none, fun _ => 0, fun _ => 0⟩, false⟩).2 = none ∧
    (pollStep [60, 240] (some true)
        ⟨⟨true, 1⟩, ⟨[], none, fun _ => 0, fun _ => 0⟩, false⟩).1 = some true ∧
    (pollStep [60, 240] (some true)
        ⟨⟨true, 0⟩, ⟨[], none, fun _ => 0, fun _ => 0⟩, false⟩).2 =
      some (selectTarget false [60, 240],
        (set_refresh_rate ⟨[], none, fun _ => 0, fun _ => 0⟩
          (selectTarget false [60, 240]) true).1)) :=
  ⟨rfl, by decide,
    failed_apply_does_not_block [60, 240] true false
      ⟨⟨true, 1⟩, ⟨[], none, fun _ => 0, fun _ => 0⟩, false⟩
      ⟨⟨true, 1⟩, ⟨[], none, fun _ => 0, fun _ => 0⟩, false⟩
      ⟨⟨true, 0⟩, ⟨[], none, fun _ => 0, fun _ => 0⟩, false⟩
      .modeQueryError rfl rfl rfl rfl rfl rfl (by decide)⟩

end RefreshRate
